import Mathlib

/-!
Verification of `src/python/consumer.py` (Broadcom/security-analytics-export-tools).

The script forwards RabbitMQ messages to a Splunk HTTP Event Collector.
We shallow-embed its pure logic:

* `Json` models Python values produced by `json.loads` (dicts keep insertion
  order; Python `int` and `float` are kept distinct, with `float` modelled as
  an exact rational);
* `build_event` / `add_event` embed `RabbitToSplunk.add_event`
  (consumer.py lines 112-129) including `json.dumps` with its default
  separators;
* `decode_body`, `wrap_list`, `event_data_of`, `send_to_splunk`,
  `rabbit_callback` embed the worker pipeline (lines 132-196).  Calls into
  external libraries (`gzip.decompress`, `json.loads`, `requests.post`) are
  parameters of the pipeline, since their code is not part of this
  repository; everything the repository itself does is embedded concretely.
* `agg_step` embeds the aggregation loop of `main` (lines 330-346);
* `setup_topology` embeds the broker-topology sequence of
  `RabbitToSplunk.start` / `add_vhost` against a broker-state model.

Python exceptions are modelled with `Except`; `sys.exit(1)` is the error
`WorkerErr.exit1`; an uncaught Python exception is `WorkerErr.uncaught`.
-/

namespace Consumer

/-- Model of the values `json.loads` can produce: `null`, booleans, Python
`int`s, Python `float`s (modelled as exact rationals), strings, lists and
dicts (association lists in insertion order; real parse results have
distinct keys). -/
inductive Json where
  | null : Json
  | bool (b : Bool) : Json
  | int (n : Int) : Json
  | float (q : ℚ) : Json
  | str (s : String) : Json
  | arr (elems : List Json) : Json
  | obj (fields : List (String × Json)) : Json
deriving Repr

/-- Whether a value is a Python dict (a JSON object). -/
def Json.isObj : Json → Bool
  | .obj _ => true
  | _ => false

/-- Dict lookup, `d[key]` on a parse result (keys of a Python dict are
unique, so first-match lookup is exact for real parse results). -/
def jlookup : List (String × Json) → String → Option Json
  | [], _ => none
  | (k, v) :: rest, key => if k = key then some v else jlookup rest key

/-- Exceptions the pipeline can raise. -/
inductive PyErr where
  | attributeError : PyErr
  | typeError : PyErr
  | valueError : PyErr
  | unicodeDecodeError : PyErr
  | jsonDecodeError : PyErr
  | badGzip : PyErr
deriving Repr, DecidableEq

/-- Truncation of a rational toward zero, the behaviour of Python `int()`
on a float. -/
def ratTrunc (q : ℚ) : Int := q.num.tdiv q.den

/-- Value of a nonempty digit string. -/
def digitsVal (ds : List Char) : Int :=
  ds.foldl (fun a c => a * 10 + ((c.toNat : Int) - 48)) 0

/-- Python `int(s)` on a string: optional sign then digits, surrounding
whitespace stripped; anything else raises `ValueError`. -/
def pyIntOfString (s : String) : Except PyErr Int :=
  let cs := s.trim.toList
  let sgnDigits : Int × List Char :=
    match cs with
    | '+' :: r => (1, r)
    | '-' :: r => (-1, r)
    | r => (1, r)
  if sgnDigits.2 ≠ [] ∧ sgnDigits.2.all (fun c => c.isDigit) then
    .ok (sgnDigits.1 * digitsVal sgnDigits.2)
  else
    .error .valueError

/-- Python `int(x)`: identity on ints, truncation toward zero on floats,
0/1 on bools, string parsing on strings, `TypeError` otherwise. -/
def pyInt : Json → Except PyErr Int
  | .int n => .ok n
  | .float q => .ok (ratTrunc q)
  | .bool b => .ok (if b then 1 else 0)
  | .str s => pyIntOfString s
  | _ => .error .typeError

/-- Hexadecimal digit (lowercase), for unicode escapes. -/
def hexDigit (n : Nat) : Char :=
  if n < 10 then Char.ofNat (48 + n) else Char.ofNat (87 + n)

/-- Four-digit lowercase hex rendering of a code unit. -/
def hex4 (n : Nat) : String :=
  String.mk [hexDigit (n / 4096 % 16), hexDigit (n / 256 % 16),
             hexDigit (n / 16 % 16), hexDigit (n % 16)]

/-- Unicode escape of one code point, as `json.dumps` with `ensure_ascii`
produces it (a surrogate pair above U+FFFF). -/
def uEscape (n : Nat) : String :=
  if n ≤ 0xffff then
    "\\u" ++ hex4 n
  else
    "\\u" ++ hex4 (0xd800 + (n - 0x10000) / 0x400) ++
    "\\u" ++ hex4 (0xdc00 + (n - 0x10000) % 0x400)

/-- Escape one character of a JSON string the way `json.dumps` does with its
default `ensure_ascii=True`: shortcuts for the common escapes, `\uXXXX` for
everything outside the printable ASCII range. -/
def escapeChar (c : Char) : String :=
  if c = '"' then "\\\""
  else if c = '\\' then "\\\\"
  else if c = '\n' then "\\n"
  else if c = '\r' then "\\r"
  else if c = '\t' then "\\t"
  else if c.toNat = 8 then "\\b"
  else if c.toNat = 12 then "\\f"
  else if c.toNat < 0x20 ∨ 0x7e < c.toNat then uEscape c.toNat
  else String.mk [c]

/-- Serialization of a string literal by `json.dumps`. -/
def dumpJString (s : String) : String :=
  "\"" ++ String.join (s.toList.map escapeChar) ++ "\""

/-- Decimal rendering of a Python float by `repr`, exact for every float
whose value has a finite decimal expansion of at most 17 fractional digits
(every float appearing in this development does; other values are
approximated by truncation at 17 digits). -/
def dumpFloat (q : ℚ) : String :=
  if q.den = 1 then
    toString q.num ++ ".0"
  else
    let a : ℚ := |q|
    let k : Nat := (((List.range 18).drop 1).find? (fun k => (a * 10 ^ k).den = 1)).getD 17
    let m : Nat := (a * 10 ^ k).floor.toNat
    let ds : List Char := (toString m).toList
    let ds : List Char := List.replicate (k + 1 - ds.length) '0' ++ ds
    let ip : List Char := ds.take (ds.length - k)
    let fp : List Char := ds.drop (ds.length - k)
    (if q < 0 then "-" else "") ++ String.mk ip ++ "." ++ String.mk fp

mutual

/-- Embedding of `json.dumps` with its default arguments: item separator
is a comma followed by a space, key separator is a colon followed by a
space, `ensure_ascii` escaping. -/
def json_dumps : Json → String
  | .null => "null"
  | .bool true => "true"
  | .bool false => "false"
  | .int n => toString n
  | .float q => dumpFloat q
  | .str s => dumpJString s
  | .arr elems => "[" ++ dumpArr elems ++ "]"
  | .obj fields => "\x7b" ++ dumpObj fields ++ "\x7d"

/-- Elements of a JSON array, joined by the default item separator. -/
def dumpArr : List Json → String
  | [] => ""
  | [x] => json_dumps x
  | x :: xs => json_dumps x ++ ", " ++ dumpArr xs

/-- Members of a JSON object, joined by the default separators. -/
def dumpObj : List (String × Json) → String
  | [] => ""
  | [kv] => dumpJString kv.1 ++ ": " ++ json_dumps kv.2
  | kv :: kvs => dumpJString kv.1 ++ ": " ++ json_dumps kv.2 ++ ", " ++ dumpObj kvs

end

/-- Embedding of the dict built by `RabbitToSplunk.add_event`
(consumer.py lines 118-125) before serialization: an `event` field holding
the payload verbatim, then `time` (Python `int(device_time)/1000`, a float),
`host` and `source`, each present exactly when its source field is present.
A non-dict payload raises `AttributeError` at `json_data.keys()`. -/
def build_event (json_data : Json) : Except PyErr Json :=
  match json_data with
  | .obj fields => do
    let base : List (String × Json) := [("event", Json.obj fields)]
    let withTime : List (String × Json) ←
      match jlookup fields "device_time" with
      | some dt => do
        let n ← pyInt dt
        pure (base ++ [("time", Json.float ((n : ℚ) / 1000))])
      | none => pure base
    let withHost : List (String × Json) :=
      match jlookup fields "device_name" with
      | some v => withTime ++ [("host", v)]
      | none => withTime
    let withSource : List (String × Json) :=
      match jlookup fields "product_name" with
      | some v => withHost ++ [("source", v)]
      | none => withHost
    pure (Json.obj withSource)
  | _ => .error .attributeError

/-- Embedding of `RabbitToSplunk.add_event` (lines 112-129): build the
event dict, then `json.dumps` it. -/
def add_event (json_data : Json) : Except PyErr String :=
  (build_event json_data).map json_dumps

/-- Specification-side projection: the `time` field of a produced
EventRecord, `none` when no record was produced or the field is absent. -/
def time_field (r : Except PyErr Json) : Option Json :=
  match r with
  | .ok (.obj rf) => jlookup rf "time"
  | _ => none

/-- Whether a byte is a UTF-8 continuation byte. -/
def isCont (b : Nat) : Bool := 0x80 ≤ b && b < 0xc0

/-- Strict UTF-8 decoding of a byte list, the behaviour of Python
`bytes.decode` with its default `utf-8` codec and `strict` error handling:
overlong encodings, surrogates and values above U+10FFFF are rejected. -/
def utf8Decode : List Nat → Option (List Char)
  | [] => some []
  | b :: rest =>
    if b < 0x80 then
      match utf8Decode rest with
      | some cs => some (Char.ofNat b :: cs)
      | none => none
    else if b < 0xc2 then none
    else if b < 0xe0 then
      match rest with
      | b1 :: rest1 =>
        if isCont b1 then
          match utf8Decode rest1 with
          | some cs => some (Char.ofNat ((b - 0xc0) * 0x40 + (b1 - 0x80)) :: cs)
          | none => none
        else none
      | [] => none
    else if b < 0xf0 then
      match rest with
      | b1 :: b2 :: rest2 =>
        let lo1 : Nat := if b = 0xe0 then 0xa0 else 0x80
        let hi1 : Nat := if b = 0xed then 0xa0 else 0xc0
        if (lo1 ≤ b1 && b1 < hi1) && isCont b2 then
          match utf8Decode rest2 with
          | some cs =>
            some (Char.ofNat ((b - 0xe0) * 0x1000 + (b1 - 0x80) * 0x40 + (b2 - 0x80)) :: cs)
          | none => none
        else none
      | _ => none
    else if b < 0xf5 then
      match rest with
      | b1 :: b2 :: b3 :: rest3 =>
        let lo1 : Nat := if b = 0xf0 then 0x90 else 0x80
        let hi1 : Nat := if b = 0xf4 then 0x90 else 0xc0
        if ((lo1 ≤ b1 && b1 < hi1) && isCont b2) && isCont b3 then
          match utf8Decode rest3 with
          | some cs =>
            some (Char.ofNat ((b - 0xf0) * 0x40000 + (b1 - 0x80) * 0x1000 +
                              (b2 - 0x80) * 0x40 + (b3 - 0x80)) :: cs)
          | none => none
        else none
      | _ => none
    else none

/-- Outcome of the worker pipeline: `exit1` is `sys.exit(1)`, `uncaught`
is a Python exception the script does not catch; either one terminates
the worker process before any acknowledgment. -/
inductive WorkerErr where
  | exit1 : WorkerErr
  | uncaught (e : PyErr) : WorkerErr
deriving Repr, DecidableEq

/-- Outcome of `requests.Session.post`: a transport-level
`RequestException`, or a response with a final status code. -/
inductive PostOutcome where
  | exc : PostOutcome
  | response (status_code : Nat) : PostOutcome
deriving Repr, DecidableEq

/-- Decoding of a byte string as UTF-8 text (`body.decode('utf-8')`,
consumer.py lines 149 and 152); failure raises `UnicodeDecodeError`,
which nothing in the script catches. -/
def decode_utf8 (bs : List Nat) : Except WorkerErr String :=
  match utf8Decode bs with
  | some cs => .ok (String.mk cs)
  | none => .error (.uncaught .unicodeDecodeError)

/-- Embedding of the decoding step of `RabbitToSplunk.send_to_splunk`
(lines 144-152): when the content-encoding tag equals exactly `gzip` the
body is decompressed (`gzip.decompress`, passed as the `decompress`
parameter) and then decoded as UTF-8; any other tag, including an absent
one, decodes the body directly as UTF-8. -/
def decode_body (decompress : List Nat → Except PyErr (List Nat))
    (content_encoding : Option String) (body : List Nat) : Except WorkerErr String :=
  if content_encoding = some "gzip" then
    match decompress body with
    | .ok raw => decode_utf8 raw
    | .error e => .error (.uncaught e)
  else
    decode_utf8 body

/-- Embedding of the list wrapping of lines 159-161: a parsed value that
is not a list is wrapped as a single-element list. -/
def wrap_list : Json → List Json
  | .arr elems => elems
  | v => [v]

/-- Embedding of the join of line 166: the serialized events are joined
into one message with no separator. -/
def join_events : List String → String
  | [] => ""
  | [s] => s
  | s :: rest => s ++ join_events rest

/-- Embedding of lines 164-166: each element is wrapped by `add_event`
and the results are joined with no separator.  Python's lazy `map` is
forced left to right by `join`, so the first exception propagates. -/
def event_data_of (json_data : List Json) : Except PyErr String :=
  (json_data.mapM add_event).map join_events

/-- The DeliveryBatch computed by `send_to_splunk` before delivery: the
decoded, parsed and list-wrapped message body (lines 144-161). -/
def delivery_batch (decompress : List Nat → Except PyErr (List Nat))
    (loads : String → Except PyErr Json)
    (content_encoding : Option String) (body : List Nat) :
    Except WorkerErr (List Json) := do
  let json_str ← decode_body decompress content_encoding body
  match loads json_str with
  | .ok v => pure (wrap_list v)
  | .error e => Except.error (.uncaught e)

/-- Embedding of `RabbitToSplunk.send_to_splunk` (lines 132-186).
`decompress` stands for `gzip.decompress`, `loads` for `json.loads` and
`post` for `self.session.post`; the repository's own logic — branch on
the encoding tag, parse, wrap, serialize and join, and the
`raise_for_status` / `reply.ok` checks with `sys.exit(1)` on failure —
is embedded concretely.  On success the number of events is returned. -/
def send_to_splunk (decompress : List Nat → Except PyErr (List Nat))
    (loads : String → Except PyErr Json) (post : String → PostOutcome)
    (content_encoding : Option String) (body : List Nat) :
    Except WorkerErr Nat := do
  let json_str ← decode_body decompress content_encoding body
  let json_data : List Json ←
    match loads json_str with
    | .ok v => pure (wrap_list v)
    | .error e => Except.error (.uncaught e)
  let event_data : String ←
    match event_data_of json_data with
    | .ok s => pure s
    | .error e => Except.error (.uncaught e)
  match post event_data with
  | .exc => Except.error .exit1
  | .response code =>
    if 400 ≤ code then
      Except.error .exit1
    else if ¬ (code < 400) then
      Except.error .exit1
    else
      pure json_data.length

/-- Observable actions of one callback invocation. -/
inductive WorkerAction where
  | ack (delivery_tag : Nat) : WorkerAction
  | metric (process_num : Nat) (session_count : Nat) : WorkerAction
  | terminated : WorkerAction
deriving Repr, DecidableEq

/-- Embedding of `RabbitToSplunk.rabbit_callback` (lines 188-196) as the
trace of its observable actions: deliver first, then acknowledge with the
message's delivery tag, then publish the metric; any failure inside
`send_to_splunk` terminates the worker before the acknowledgment. -/
def rabbit_callback (decompress : List Nat → Except PyErr (List Nat))
    (loads : String → Except PyErr Json) (post : String → PostOutcome)
    (content_encoding : Option String) (body : List Nat)
    (delivery_tag : Nat) (process_num : Nat) : List WorkerAction :=
  match send_to_splunk decompress loads post content_encoding body with
  | .ok n => [.ack delivery_tag, .metric process_num n]
  | .error _ => [.terminated]

/-- State of the aggregation loop in `main` (lines 323-328): running
totals, the totals at the last report, and the time of the last report.
Python integers are modelled by `Int`. -/
structure AggState where
  total_msg_count : Int
  last_total_msg_count : Int
  total_session_count : Int
  last_total_session_count : Int
  last_time : Int
deriving Repr, DecidableEq

/-- Rates computed at a report (lines 339-340); Python float division is
modelled by exact rational division. -/
structure RateReport where
  msg_per_second : ℚ
  sessions_per_second : ℚ
deriving Repr, DecidableEq

/-- Embedding of one iteration of the aggregation loop (lines 330-346):
consume one WorkerMetric carrying `session_count`, bump both running
totals, and if at least 5 seconds have elapsed since the last report,
compute the two rates over that interval and reset the rate window
(last-report time and last-report counters). -/
def agg_step (st : AggState) (session_count : Nat) (now : Int) :
    AggState × Option RateReport :=
  let total_msg : Int := st.total_msg_count + 1
  let total_sessions : Int := st.total_session_count + session_count
  let delta : Int := now - st.last_time
  if 5 ≤ delta then
    ({ total_msg_count := total_msg, last_total_msg_count := total_msg,
       total_session_count := total_sessions,
       last_total_session_count := total_sessions, last_time := now },
     some { msg_per_second := ((total_msg - st.last_total_msg_count : Int) : ℚ) / (delta : ℚ),
            sessions_per_second :=
              ((total_sessions - st.last_total_session_count : Int) : ℚ) / (delta : ℚ) })
  else
    ({ st with total_msg_count := total_msg, total_session_count := total_sessions }, none)

/-- The aggregation loop run over a list of consumed metrics, each paired
with the clock value observed when it was consumed. -/
def agg_run (st : AggState) : List (Nat × Int) → AggState
  | [] => st
  | (c, t) :: rest => agg_run (agg_step st c t).1 rest

/-- Errors the broker can raise on a declaration. -/
inductive BrokerErr where
  | preconditionFailed : BrokerErr
  | notFound : BrokerErr
deriving Repr, DecidableEq

/-- Modelled from the spec: the broker-side state touched by the topology
sequence of `RabbitToSplunk.start` (lines 83-104) and `add_vhost`
(lines 224-247).  The broker itself (RabbitMQ) is not part of this
repository, so its state — virtual hosts, exchanges with their durable
flag, queues, bindings and the per-channel prefetch limit — is modelled
from the spec's idempotent declaration semantics. -/
structure BrokerState where
  vhosts : List String
  exchanges : List (String × Bool)
  queues : List String
  bindings : List (String × String × String)
  prefetch : Option Nat
deriving Repr, DecidableEq

/-- Modelled from the spec: the HTTP `PUT /api/vhosts/<vhost>` issued by
`add_vhost` (lines 224-247); creating an existing virtual host is a
no-op and never an error. -/
def add_vhost (st : BrokerState) (vhost : String) : BrokerState :=
  if vhost ∈ st.vhosts then st else { st with vhosts := vhost :: st.vhosts }

/-- Modelled from the spec: `channel.exchange_declare` (line 86) with
idempotent declaration semantics — re-declaring with identical arguments
is a no-op, re-declaring with a different durable flag fails. -/
def exchange_declare (st : BrokerState) (exchange : String) (durable : Bool) :
    Except BrokerErr BrokerState :=
  match st.exchanges.lookup exchange with
  | some d => if d = durable then .ok st else .error .preconditionFailed
  | none => .ok { st with exchanges := (exchange, durable) :: st.exchanges }

/-- Modelled from the spec: `channel.queue_declare` (line 92);
re-declaring an existing queue with identical arguments is a no-op. -/
def queue_declare (st : BrokerState) (queue : String) : Except BrokerErr BrokerState :=
  if queue ∈ st.queues then .ok st
  else .ok { st with queues := queue :: st.queues }

/-- Modelled from the spec: `channel.queue_bind` (line 95); binding
requires the queue and the exchange to exist, and an already-existing
identical binding is a no-op. -/
def queue_bind (st : BrokerState) (queue exchange routing_key : String) :
    Except BrokerErr BrokerState :=
  if queue ∈ st.queues ∧ (st.exchanges.lookup exchange).isSome then
    if (queue, exchange, routing_key) ∈ st.bindings then .ok st
    else .ok { st with bindings := (queue, exchange, routing_key) :: st.bindings }
  else .error .notFound

/-- Modelled from the spec: `channel.basic_qos` (line 104) sets the
channel's flow-control (prefetch) limit. -/
def basic_qos (st : BrokerState) (n : Nat) : BrokerState :=
  { st with prefetch := some n }

/-- The topology sequence performed by one launch: `add_vhost` (from
`main`, line 306), then the declarations of `RabbitToSplunk.start`
(lines 83-104): durable exchange, queue named by appending `_q` to the
exchange name, binding with the empty routing key, prefetch limit 10. -/
def setup_topology (st : BrokerState) (vhost exchange : String) :
    Except BrokerErr BrokerState := do
  let st1 := add_vhost st vhost
  let st2 ← exchange_declare st1 exchange true
  let st3 ← queue_declare st2 (exchange ++ "_q")
  let st4 ← queue_bind st3 (exchange ++ "_q") exchange ""
  pure (basic_qos st4 10)

/-! Theorems.  We first prove a case-split normal form for
`send_to_splunk`, shared by several claims. -/

/-- Normal form of `send_to_splunk`: decode, parse, serialize, then post;
the two status checks of lines 173 and 178 collapse to a single test of
`status_code < 400`. -/
theorem send_to_splunk_eq (decompress : List Nat → Except PyErr (List Nat))
    (loads : String → Except PyErr Json) (post : String → PostOutcome)
    (ce : Option String) (body : List Nat) :
    send_to_splunk decompress loads post ce body =
      match decode_body decompress ce body with
      | .error e => .error e
      | .ok s =>
        match loads s with
        | .error e => .error (.uncaught e)
        | .ok v =>
          match event_data_of (wrap_list v) with
          | .error e => .error (.uncaught e)
          | .ok ed =>
            match post ed with
            | .exc => .error .exit1
            | .response code =>
              if code < 400 then .ok (wrap_list v).length else .error .exit1 := by
  unfold send_to_splunk
  cases hd : decode_body decompress ce body with
  | error e => simp [bind, Except.bind]
  | ok s =>
    simp only [bind, Except.bind]
    cases hl : loads s with
    | error e => rfl
    | ok v =>
      simp only [bind, Except.bind, pure, Except.pure]
      cases he : event_data_of (wrap_list v) with
      | error e => rfl
      | ok ed =>
        simp only [bind, Except.bind, pure, Except.pure]
        cases hp : post ed with
        | exc => rfl
        | response code =>
          by_cases hc : 400 ≤ code
          · simp [hc, Nat.not_lt.mpr hc]
          · simp [hc, Nat.lt_of_not_le hc]

/-- C2: for every DeliveryBatch the wire form sent in one HTTP request
body is the concatenation, with no separator, of each record's individual
JSON serialization; in particular joining the two serialized records
`"event":"a":1` and `"event":"b":2` (braces elided here) yields exactly
their bare concatenation. -/
theorem c2_wire_form_concatenation :
    ∀ (ps : List Json) (ss : List String),
      List.mapM add_event ps = Except.ok ss →
      event_data_of ps = Except.ok (join_events ss)
      ∧ (∀ s1 s2 : String, join_events [s1, s2] = s1 ++ s2)
      ∧ join_events ["\x7b\"event\":\x7b\"a\":1\x7d\x7d", "\x7b\"event\":\x7b\"b\":2\x7d\x7d"]
          = "\x7b\"event\":\x7b\"a\":1\x7d\x7d\x7b\"event\":\x7b\"b\":2\x7d\x7d" := by
  intro ps ss h
  refine ⟨?_, fun s1 s2 => rfl, by decide⟩
  unfold event_data_of
  rw [h]
  rfl

/-- Witness for C2 at a concrete two-record batch; the serialized records
carry the separators `json.dumps` emits by default. -/
theorem c2_witness :
    event_data_of [Json.obj [("a", Json.int 1)], Json.obj [("b", Json.int 2)]]
      = Except.ok (join_events
          ["\x7b\"event\": \x7b\"a\": 1\x7d\x7d", "\x7b\"event\": \x7b\"b\": 2\x7d\x7d"])
    ∧ join_events ["\x7b\"event\": \x7b\"a\": 1\x7d\x7d", "\x7b\"event\": \x7b\"b\": 2\x7d\x7d"]
      = "\x7b\"event\": \x7b\"a\": 1\x7d\x7d\x7b\"event\": \x7b\"b\": 2\x7d\x7d" :=
  ⟨(c2_wire_form_concatenation
      [Json.obj [("a", Json.int 1)], Json.obj [("b", Json.int 2)]]
      ["\x7b\"event\": \x7b\"a\": 1\x7d\x7d", "\x7b\"event\": \x7b\"b\": 2\x7d\x7d"]
      (by rfl)).1, rfl⟩

/-- C3 counterexample: the claim states the `time` field equals the
numeric value of `device_time` divided by 1000 with its fractional part
preserved.  For `device_time = 1500000.5` the code computes
`int(1500000.5)/1000 = 1500.0`, but `1500000.5 / 1000 = 1500.0005`. -/
theorem c3_counterexample :
    time_field (build_event (.obj [("device_time",
        .float (⟨3000001, 2, by norm_num, by norm_num⟩ : ℚ))]))
      = some (.float (1500 : ℚ))
    ∧ (⟨3000001, 2, by norm_num, by norm_num⟩ : ℚ) / 1000 ≠ (1500 : ℚ) := by
  constructor
  · have ht : Int.tdiv 3000001 2 = 1500000 := by decide
    simp [build_event, jlookup, pyInt, ratTrunc, time_field, bind, Except.bind, pure,
      Except.pure, ht]
    norm_num
  · rw [Rat.mk'_eq_divInt, Rat.divInt_eq_div]
    norm_num

/-- C3 (amended): when `device_time` is present and a record is produced,
its `time` field equals `int(device_time) / 1000` — the value of
`device_time` truncated toward zero to an integer, then divided by 1000
— so the quotient carries at most a millisecond fraction and the
fractional part of `device_time` itself is discarded; in particular
`device_time = 1500000` yields `time = 1500.0`. -/
theorem c3_time_division_truncates :
    (∀ (fields : List (String × Json)) (dt : Json) (record : Json),
      jlookup fields "device_time" = some dt →
      build_event (.obj fields) = .ok record →
      ∃ n : Int, pyInt dt = .ok n ∧
        time_field (.ok record) = some (.float ((n : ℚ) / 1000)))
    ∧ time_field (build_event (.obj [("device_time", .int 1500000)]))
        = some (.float (1500 : ℚ)) := by
  constructor
  · intro fields dt record hdt h
    simp only [build_event, bind, Except.bind, Except.pure, pure] at h
    rw [hdt] at h
    dsimp only at h
    cases hpy : pyInt dt with
    | error e => rw [hpy] at h; exact Except.noConfusion h
    | ok n =>
      rw [hpy] at h
      refine ⟨n, rfl, ?_⟩
      dsimp only at h
      repeat' split at h
      all_goals
        injection h with h
      all_goals
        subst h
      all_goals
        simp [time_field, jlookup]
  · have hq : ((1500000 : Int) : ℚ) / 1000 = 1500 := by norm_num
    simp [build_event, jlookup, pyInt, time_field, bind, Except.bind, pure, Except.pure]
    norm_num

/-- Witness for C3 (amended) at `device_time = 1500000`. -/
theorem c3_witness :
    ∃ n : Int, pyInt (.int 1500000) = .ok n ∧
      time_field (.ok (.obj [("event", .obj [("device_time", Json.int 1500000)]),
          ("time", .float ((1500000 : ℚ) / 1000))]))
        = some (.float ((n : ℚ) / 1000)) :=
  c3_time_division_truncates.1 [("device_time", .int 1500000)] (.int 1500000) _ rfl rfl

/-- C4: for every object payload from which a record is produced, the
record has `time`, `host`, `source` exactly when the payload has
`device_time`, `device_name`, `product_name` (with `host` and `source`
copied verbatim), and its `event` field is always present and equals the
original payload verbatim. -/
theorem c4_field_presence :
    ∀ (fields : List (String × Json)) (record : Json),
      build_event (.obj fields) = .ok record →
      ∃ rf, record = .obj rf ∧
        jlookup rf "event" = some (.obj fields) ∧
        ((jlookup rf "time").isSome ↔ (jlookup fields "device_time").isSome) ∧
        jlookup rf "host" = jlookup fields "device_name" ∧
        jlookup rf "source" = jlookup fields "product_name" := by
  intro fields record h
  simp only [build_event, bind, Except.bind, Except.pure, pure] at h
  repeat' split at h
  all_goals first
    | exact Except.noConfusion h
    | (injection h with h; subst h; exact ⟨_, rfl, by simp [jlookup, *]⟩)

/-- Witness for C4 at a payload lacking `device_name`: the produced
record has no `host` field, and its `event` field is the payload. -/
theorem c4_witness :
    ∃ rf, (Json.obj [("event", Json.obj [("product_name", Json.str "SA")]),
        ("source", Json.str "SA")]) = Json.obj rf ∧
      jlookup rf "event" = some (.obj [("product_name", Json.str "SA")]) ∧
      ((jlookup rf "time").isSome ↔
        (jlookup [("product_name", Json.str "SA")] "device_time").isSome) ∧
      jlookup rf "host" = jlookup [("product_name", Json.str "SA")] "device_name" ∧
      jlookup rf "source" = jlookup [("product_name", Json.str "SA")] "product_name" :=
  c4_field_presence [("product_name", Json.str "SA")] _ rfl

/-- Success characterization: `send_to_splunk` succeeds exactly by
decoding, parsing, serializing, and receiving a response with status
below 400, and then returns the batch size. -/
theorem send_to_splunk_ok {decompress : List Nat → Except PyErr (List Nat)}
    {loads : String → Except PyErr Json} {post : String → PostOutcome}
    {ce : Option String} {body : List Nat} {n : Nat}
    (h : send_to_splunk decompress loads post ce body = .ok n) :
    ∃ s v ed code,
      decode_body decompress ce body = .ok s ∧ loads s = .ok v ∧
      event_data_of (wrap_list v) = .ok ed ∧ post ed = .response code ∧
      code < 400 ∧ n = (wrap_list v).length := by
  rw [send_to_splunk_eq] at h
  repeat' split at h
  all_goals try exact Except.noConfusion h
  rename_i x3 s h1 x2 v h2 x1 ed h3 x0 code h4 hc
  exact ⟨s, v, ed, code, h1, h2, h3, h4, hc, (Except.ok.inj h).symm⟩

/-- C1 counterexample: the claim states any non-2xx delivery response
leaves the message unacknowledged and terminates the worker.  With a
final response status of 300 — not a 2xx — the code's checks
(`raise_for_status`, which only raises at 400 and above, and `reply.ok`,
which is `status_code < 400`) both pass, and the worker acknowledges the
message and emits its metric. -/
theorem c1_counterexample :
    rabbit_callback (fun bs => .ok bs) (fun _ => .ok (.obj []))
        (fun _ => .response 300) none [] 7 0
      = [.ack 7, .metric 0 1]
    ∧ ¬ (200 ≤ 300 ∧ 300 ≤ 299) :=
  ⟨rfl, by decide⟩

/-- C1 (amended): acknowledgment is synchronized to an `ok` delivery
response, meaning status code below 400: on any delivery failure the code
treats as fatal — a transport-level exception, or a response with status
400 or above — the worker acknowledges nothing and terminates; only when
`send_to_splunk` succeeds (which requires a response with status below
400) is the message acknowledged, after delivery, using its delivery
handle, followed by the worker metric. -/
theorem c1_ack_only_after_ok_delivery :
    ∀ (decompress : List Nat → Except PyErr (List Nat))
      (loads : String → Except PyErr Json) (post : String → PostOutcome)
      (ce : Option String) (body : List Nat) (tag pnum : Nat),
      (∀ e, send_to_splunk decompress loads post ce body = .error e →
        rabbit_callback decompress loads post ce body tag pnum = [.terminated])
      ∧ (∀ n, send_to_splunk decompress loads post ce body = .ok n →
        rabbit_callback decompress loads post ce body tag pnum
          = [.ack tag, .metric pnum n])
      ∧ (∀ code, 400 ≤ code →
        rabbit_callback decompress loads (fun _ => .response code) ce body tag pnum
          = [.terminated])
      ∧ rabbit_callback decompress loads (fun _ => .exc) ce body tag pnum
          = [.terminated]
      ∧ (∀ n, send_to_splunk decompress loads post ce body = .ok n →
        ∃ ed code, post ed = .response code ∧ code < 400) := by
  intro decompress loads post ce body tag pnum
  refine ⟨?_, ?_, ?_, ?_, ?_⟩
  · intro e h
    unfold rabbit_callback
    rw [h]
  · intro n h
    unfold rabbit_callback
    rw [h]
  · intro code hcode
    unfold rabbit_callback
    cases hs : send_to_splunk decompress loads (fun _ => .response code) ce body with
    | error e => rfl
    | ok n =>
      exfalso
      obtain ⟨s, v, ed, c2, _, _, _, hp, hc, _⟩ := send_to_splunk_ok hs
      have : code = c2 := PostOutcome.response.inj hp
      omega
  · unfold rabbit_callback
    cases hs : send_to_splunk decompress loads (fun _ => .exc) ce body with
    | error e => rfl
    | ok n =>
      exfalso
      obtain ⟨s, v, ed, c2, _, _, _, hp, hc, _⟩ := send_to_splunk_ok hs
      exact PostOutcome.noConfusion hp
  · intro n h
    obtain ⟨s, v, ed, c2, _, _, _, hp, hc, _⟩ := send_to_splunk_ok h
    exact ⟨ed, c2, hp, hc⟩

/-- Witness for C1 (amended): a simulated 500 response terminates the
worker with no acknowledgment, and a 200 response acknowledges after
delivery. -/
theorem c1_witness :
    rabbit_callback (fun bs => .ok bs) (fun _ => .ok (.obj []))
        (fun _ => .response 500) none [] 7 0 = [.terminated]
    ∧ rabbit_callback (fun bs => .ok bs) (fun _ => .ok (.obj []))
        (fun _ => .response 200) none [] 7 0 = [.ack 7, .metric 0 1] :=
  ⟨(c1_ack_only_after_ok_delivery (fun bs => .ok bs) (fun _ => .ok (.obj []))
      (fun _ => .response 500) none [] 7 0).2.2.1 500 (by norm_num),
   (c1_ack_only_after_ok_delivery (fun bs => .ok bs) (fun _ => .ok (.obj []))
      (fun _ => .response 200) none [] 7 0).2.1 1 (by rfl)⟩

/-- C5: when the decoded body parses as JSON, the DeliveryBatch is the
parsed value itself for a single object (size 1) and the element list for
a JSON array (size N), and a successful delivery returns exactly that
size. -/
theorem c5_batch_size_and_count :
    ∀ (decompress : List Nat → Except PyErr (List Nat))
      (loads : String → Except PyErr Json) (post : String → PostOutcome)
      (ce : Option String) (body : List Nat) (s : String) (v : Json),
      decode_body decompress ce body = .ok s →
      loads s = .ok v →
      delivery_batch decompress loads ce body = .ok (wrap_list v)
      ∧ (∀ fs, v = .obj fs → (wrap_list v).length = 1)
      ∧ (∀ l, v = .arr l → (wrap_list v).length = l.length)
      ∧ (∀ n, send_to_splunk decompress loads post ce body = .ok n →
          n = (wrap_list v).length) := by
  intro decompress loads post ce body s v hd hl
  refine ⟨?_, ?_, ?_, ?_⟩
  · unfold delivery_batch
    rw [hd]
    simp [bind, Except.bind, pure, Except.pure, hl]
  · intro fs hv; subst hv; rfl
  · intro l hv; subst hv; rfl
  · intro n h
    obtain ⟨s2, v2, ed, code, h1, h2, _, _, _, h6⟩ := send_to_splunk_ok h
    have hs : s2 = s := (Except.ok.inj (hd.symm.trans h1)).symm
    subst hs
    have hv : v2 = v := (Except.ok.inj (hl.symm.trans h2)).symm
    subst hv
    exact h6

/-- Witness for C5: a body parsing to a JSON array of 3 objects yields a
batch of 3 records and a successful delivery reports count 3. -/
theorem c5_witness :
    delivery_batch (fun bs => .ok bs)
        (fun _ => .ok (.arr [.obj [], .obj [], .obj []])) none []
      = .ok (wrap_list (.arr [.obj [], .obj [], .obj []]))
    ∧ (wrap_list (Json.arr [.obj [], .obj [], .obj []])).length = 3
    ∧ (3 : Nat) = (wrap_list (Json.arr [.obj [], .obj [], .obj []])).length :=
  have h := c5_batch_size_and_count (fun bs => .ok bs)
    (fun _ => .ok (.arr [.obj [], .obj [], .obj []])) (fun _ => .response 200)
    none [] "" (.arr [.obj [], .obj [], .obj []]) rfl rfl
  ⟨h.1, h.2.2.1 [.obj [], .obj [], .obj []] rfl, h.2.2.2 3 (by rfl)⟩

/-- C6: a gzip-tagged message whose decompressed bytes are exactly the
bytes of an identity-tagged message decodes to byte-for-byte the same
text, and the two messages produce identical DeliveryBatches and
identical delivery outcomes: the pipeline commutes with the choice of
content encoding. -/
theorem c6_gzip_identity_commute :
    ∀ (decompress : List Nat → Except PyErr (List Nat))
      (loads : String → Except PyErr Json) (post : String → PostOutcome)
      (b1 b2 : List Nat),
      decompress b1 = .ok b2 →
      decode_body decompress (some "gzip") b1 = decode_utf8 b2
      ∧ decode_body decompress (some "gzip") b1
          = decode_body decompress (some "identity") b2
      ∧ delivery_batch decompress loads (some "gzip") b1
          = delivery_batch decompress loads (some "identity") b2
      ∧ send_to_splunk decompress loads post (some "gzip") b1
          = send_to_splunk decompress loads post (some "identity") b2 := by
  intro decompress loads post b1 b2 h
  have h1 : decode_body decompress (some "gzip") b1 = decode_utf8 b2 := by
    simp [decode_body, h]
  have h2 : decode_body decompress (some "identity") b2 = decode_utf8 b2 := by
    simp [decode_body]
  refine ⟨h1, h1.trans h2.symm, ?_, ?_⟩
  · unfold delivery_batch
    rw [h1, h2]
  · unfold send_to_splunk
    rw [h1, h2]

/-- Witness for C6 at concrete bytes: the identity-tagged twin carries
the decompressed bytes of the gzip-tagged message. -/
theorem c6_witness :
    decode_body (fun _ => .ok [123, 125]) (some "gzip") [31, 139]
      = decode_utf8 [123, 125]
    ∧ send_to_splunk (fun _ => .ok [123, 125]) (fun _ => .ok (.obj []))
        (fun _ => .response 200) (some "gzip") [31, 139]
      = send_to_splunk (fun _ => .ok [123, 125]) (fun _ => .ok (.obj []))
        (fun _ => .response 200) (some "identity") [123, 125] :=
  have h := c6_gzip_identity_commute (fun _ => .ok [123, 125])
    (fun _ => .ok (.obj [])) (fun _ => .response 200) [31, 139] [123, 125] rfl
  ⟨h.1, h.2.2.2⟩

/-- C9: the gzip decompression branch is taken exactly when the
content-encoding tag equals the string `gzip`; every other tag — absent,
`identity`, or any unrecognized name, even `Gzip` — decodes the body
directly as UTF-8, and no tag value is ever rejected as unsupported. -/
theorem c9_gzip_branch_iff :
    ∀ (decompress : List Nat → Except PyErr (List Nat)) (body : List Nat),
      (∀ raw, decompress body = .ok raw →
        decode_body decompress (some "gzip") body = decode_utf8 raw)
      ∧ (∀ e, decompress body = .error e →
        decode_body decompress (some "gzip") body = .error (.uncaught e))
      ∧ (∀ ce : Option String, ce ≠ some "gzip" →
        decode_body decompress ce body = decode_utf8 body)
      ∧ decode_body decompress none body = decode_utf8 body
      ∧ decode_body decompress (some "identity") body = decode_utf8 body
      ∧ decode_body decompress (some "Gzip") body = decode_utf8 body := by
  intro decompress body
  refine ⟨?_, ?_, ?_, ?_, ?_, ?_⟩
  · intro raw h; simp [decode_body, h]
  · intro e h; simp [decode_body, h]
  · intro ce h; simp [decode_body, h]
  · simp [decode_body]
  · simp [decode_body]
  · simp [decode_body]

/-- Witness for C9: an unrecognized tag decodes as identity, the exact
tag `gzip` decompresses first. -/
theorem c9_witness :
    decode_body (fun _ => .ok [104]) (some "deflate") [104] = decode_utf8 [104]
    ∧ decode_body (fun _ => .ok [104]) (some "gzip") [104] = decode_utf8 [104] :=
  ⟨(c9_gzip_branch_iff (fun _ => .ok [104]) [104]).2.2.1 (some "deflate") (by simp),
   (c9_gzip_branch_iff (fun _ => .ok [104]) [104]).1 [104] rfl⟩

/-- C10: the Transformer is only defined for JSON objects: a payload
element that is not an object raises `AttributeError` at
`json_data.keys()`, and a message whose parsed body contains such an
element terminates the worker with that uncaught error instead of
producing an EventRecord with only the `event` field. -/
theorem c10_non_object_fatal :
    ∀ j : Json, j.isObj = false →
      add_event j = .error .attributeError
      ∧ (∀ (decompress : List Nat → Except PyErr (List Nat))
          (loads : String → Except PyErr Json) (post : String → PostOutcome)
          (ce : Option String) (body : List Nat) (s : String),
          decode_body decompress ce body = .ok s →
          loads s = .ok (.arr [j]) →
          send_to_splunk decompress loads post ce body
            = .error (.uncaught .attributeError)
          ∧ ∀ tag pnum,
              rabbit_callback decompress loads post ce body tag pnum
                = [.terminated]) := by
  intro j hj
  have hadd : add_event j = .error .attributeError := by
    cases j <;> simp_all [add_event, build_event, Except.map, Json.isObj]
  refine ⟨hadd, ?_⟩
  intro decompress loads post ce body s hd hl
  have hev : event_data_of (wrap_list (.arr [j])) = .error .attributeError := by
    simp [event_data_of, wrap_list, List.mapM, List.mapM.loop, hadd, bind,
      Except.bind, Except.map]
  have hsend : send_to_splunk decompress loads post ce body
      = .error (.uncaught .attributeError) := by
    rw [send_to_splunk_eq]
    simp only [hd, hl, hev]
  refine ⟨hsend, ?_⟩
  intro tag pnum
  unfold rabbit_callback
  rw [hsend]

/-- Witness for C10 at the body `[5]`: the array element 5 is not an
object, and the worker dies with the uncaught `AttributeError`. -/
theorem c10_witness :
    add_event (.int 5) = .error .attributeError
    ∧ send_to_splunk (fun bs => .ok bs) (fun _ => .ok (.arr [.int 5]))
        (fun _ => .response 200) none [91, 53, 93]
      = .error (.uncaught .attributeError)
    ∧ rabbit_callback (fun bs => .ok bs) (fun _ => .ok (.arr [.int 5]))
        (fun _ => .response 200) none [91, 53, 93] 3 1 = [.terminated] :=
  have h := c10_non_object_fatal (.int 5) rfl
  have h2 := h.2 (fun bs => .ok bs) (fun _ => .ok (.arr [.int 5]))
    (fun _ => .response 200) none [91, 53, 93] "[5]" (by rfl) rfl
  ⟨h.1, h2.1, h2.2 3 1⟩

/-- Helper: one aggregation step always increments the running totals by
exactly one message and the consumed session count. -/
theorem agg_step_totals (st : AggState) (c : Nat) (now : Int) :
    (agg_step st c now).1.total_msg_count = st.total_msg_count + 1
    ∧ (agg_step st c now).1.total_session_count = st.total_session_count + c := by
  unfold agg_step
  by_cases h : 5 ≤ now - st.last_time <;> simp [h]

/-- Helper: the running totals never decrease over any run of the
aggregation loop. -/
theorem agg_run_mono (evs : List (Nat × Int)) :
    ∀ st : AggState,
      st.total_msg_count ≤ (agg_run st evs).total_msg_count
      ∧ st.total_session_count ≤ (agg_run st evs).total_session_count := by
  induction evs with
  | nil => intro st; exact ⟨le_refl _, le_refl _⟩
  | cons e rest ih =>
    intro st
    obtain ⟨c, t⟩ := e
    obtain ⟨h1a, h1b⟩ := agg_step_totals st c t
    obtain ⟨h2a, h2b⟩ := ih (agg_step st c t).1
    have hrun : agg_run st ((c, t) :: rest) = agg_run (agg_step st c t).1 rest := rfl
    rw [hrun]
    exact ⟨by omega, by omega⟩

/-- C7: whenever at least 5 seconds have elapsed since the last report at
the moment a WorkerMetric is consumed, the Aggregator emits the
messages-per-second and records-per-second rates over the interval since
the previous report and resets the rate window (last-report time and
last-report counters); the running totals increase by exactly this
message and its session count at every step, and are monotonically
non-decreasing — never reset — over any run. -/
theorem c7_aggregator_report_and_totals :
    ∀ (st : AggState) (session_count : Nat) (now : Int),
      (5 ≤ now - st.last_time →
        (agg_step st session_count now).2 =
          some { msg_per_second :=
                   ((st.total_msg_count + 1 - st.last_total_msg_count : Int) : ℚ)
                     / ((now - st.last_time : Int) : ℚ),
                 sessions_per_second :=
                   ((st.total_session_count + session_count
                       - st.last_total_session_count : Int) : ℚ)
                     / ((now - st.last_time : Int) : ℚ) }
        ∧ (agg_step st session_count now).1.last_time = now
        ∧ (agg_step st session_count now).1.last_total_msg_count
            = (agg_step st session_count now).1.total_msg_count
        ∧ (agg_step st session_count now).1.last_total_session_count
            = (agg_step st session_count now).1.total_session_count)
      ∧ (agg_step st session_count now).1.total_msg_count = st.total_msg_count + 1
      ∧ (agg_step st session_count now).1.total_session_count
          = st.total_session_count + session_count
      ∧ (∀ evs : List (Nat × Int),
          st.total_msg_count ≤ (agg_run st evs).total_msg_count
          ∧ st.total_session_count ≤ (agg_run st evs).total_session_count) := by
  intro st c now
  refine ⟨?_, (agg_step_totals st c now).1, (agg_step_totals st c now).2,
    fun evs => agg_run_mono evs st⟩
  intro h5
  unfold agg_step
  simp [h5]

/-- Witness for C7 at a concrete state and clock where 5 seconds have
elapsed. -/
theorem c7_witness :
    (agg_step ⟨0, 0, 0, 0, 0⟩ 4 10).2 =
      some { msg_per_second :=
               (((0 : Int) + 1 - (0 : Int) : Int) : ℚ) / (((10 : Int) - (0 : Int) : Int) : ℚ),
             sessions_per_second :=
               (((0 : Int) + (4 : Nat) - (0 : Int) : Int) : ℚ)
                 / (((10 : Int) - (0 : Int) : Int) : ℚ) }
    ∧ (agg_step ⟨0, 0, 0, 0, 0⟩ 4 10).1.last_time = 10
    ∧ (agg_step ⟨0, 0, 0, 0, 0⟩ 4 10).1.last_total_msg_count
        = (agg_step ⟨0, 0, 0, 0, 0⟩ 4 10).1.total_msg_count
    ∧ (agg_step ⟨0, 0, 0, 0, 0⟩ 4 10).1.last_total_session_count
        = (agg_step ⟨0, 0, 0, 0, 0⟩ 4 10).1.total_session_count :=
  (c7_aggregator_report_and_totals ⟨0, 0, 0, 0, 0⟩ 4 10).1 (by norm_num)

/-- Helper: creating a virtual host puts it in the broker state. -/
theorem add_vhost_mem (st : BrokerState) (v : String) : v ∈ (add_vhost st v).vhosts := by
  unfold add_vhost
  by_cases h : v ∈ st.vhosts <;> simp [h]

/-- Helper: creating an existing virtual host is a no-op. -/
theorem add_vhost_of_mem {st : BrokerState} {v : String} (h : v ∈ st.vhosts) :
    add_vhost st v = st := by
  simp [add_vhost, h]

/-- Helper: a successful exchange declaration records the exchange and
touches no other broker state. -/
theorem exchange_declare_ok {st st2 : BrokerState} {ex : String} {d : Bool}
    (h : exchange_declare st ex d = .ok st2) :
    st2.exchanges.lookup ex = some d ∧ st2.vhosts = st.vhosts
    ∧ st2.queues = st.queues ∧ st2.bindings = st.bindings
    ∧ st2.prefetch = st.prefetch := by
  unfold exchange_declare at h
  cases hl : st.exchanges.lookup ex with
  | some d0 =>
    rw [hl] at h
    by_cases hd : d0 = d
    · subst hd
      simp at h
      subst h
      exact ⟨hl, rfl, rfl, rfl, rfl⟩
    · simp [hd] at h
  | none =>
    rw [hl] at h
    simp only [Except.ok.injEq] at h
    subst h
    refine ⟨by simp [List.lookup], rfl, rfl, rfl, rfl⟩

/-- Helper: re-declaring an exchange that exists with the same durable
flag is a no-op. -/
theorem exchange_declare_self {st : BrokerState} {ex : String} {d : Bool}
    (h : st.exchanges.lookup ex = some d) : exchange_declare st ex d = .ok st := by
  simp [exchange_declare, h]

/-- Helper: a successful queue declaration records the queue and touches
no other broker state. -/
theorem queue_declare_ok {st st2 : BrokerState} {q : String}
    (h : queue_declare st q = .ok st2) :
    q ∈ st2.queues ∧ st2.vhosts = st.vhosts ∧ st2.exchanges = st.exchanges
    ∧ st2.bindings = st.bindings ∧ st2.prefetch = st.prefetch := by
  unfold queue_declare at h
  by_cases hq : q ∈ st.queues
  · simp only [if_pos hq, Except.ok.injEq] at h
    subst h
    exact ⟨hq, rfl, rfl, rfl, rfl⟩
  · simp only [if_neg hq, Except.ok.injEq] at h
    subst h
    exact ⟨by simp, rfl, rfl, rfl, rfl⟩

/-- Helper: re-declaring an existing queue is a no-op. -/
theorem queue_declare_self {st : BrokerState} {q : String} (h : q ∈ st.queues) :
    queue_declare st q = .ok st := by
  simp [queue_declare, h]

/-- Helper: a successful binding records the binding and touches no other
broker state. -/
theorem queue_bind_ok {st st2 : BrokerState} {q ex rk : String}
    (h : queue_bind st q ex rk = .ok st2) :
    (q, ex, rk) ∈ st2.bindings ∧ st2.vhosts = st.vhosts
    ∧ st2.exchanges = st.exchanges ∧ st2.queues = st.queues
    ∧ st2.prefetch = st.prefetch := by
  unfold queue_bind at h
  by_cases hpre : q ∈ st.queues ∧ (st.exchanges.lookup ex).isSome
  · rw [if_pos hpre] at h
    by_cases hb : (q, ex, rk) ∈ st.bindings
    · rw [if_pos hb] at h
      injection h with h
      subst h
      exact ⟨hb, rfl, rfl, rfl, rfl⟩
    · rw [if_neg hb] at h
      injection h with h
      subst h
      exact ⟨by simp, rfl, rfl, rfl, rfl⟩
  · rw [if_neg hpre] at h
    exact Except.noConfusion h

/-- Helper: re-declaring an existing binding is a no-op. -/
theorem queue_bind_self {st : BrokerState} {q ex rk : String} (h1 : q ∈ st.queues)
    (h2 : (st.exchanges.lookup ex).isSome) (h3 : (q, ex, rk) ∈ st.bindings) :
    queue_bind st q ex rk = .ok st := by
  simp [queue_bind, h1, h2, h3]

/-- Helper: setting the prefetch limit it already has changes nothing. -/
theorem basic_qos_self {st : BrokerState} (h : st.prefetch = some 10) :
    basic_qos st 10 = st := by
  cases st
  simp_all [basic_qos]

/-- C8: a successful run of the Topology Initializer leaves the broker
holding the virtual host, the durable exchange, the queue named by
appending `_q` to the exchange name, the binding with the empty routing
key and the flow-control limit 10, and running the initializer again with
identical parameters succeeds and leaves that state unchanged. -/
theorem c8_topology_idempotent :
    ∀ (st : BrokerState) (vhost exchange : String) (stf : BrokerState),
      setup_topology st vhost exchange = .ok stf →
      setup_topology stf vhost exchange = .ok stf
      ∧ vhost ∈ stf.vhosts
      ∧ stf.exchanges.lookup exchange = some true
      ∧ (exchange ++ "_q") ∈ stf.queues
      ∧ (exchange ++ "_q", exchange, "") ∈ stf.bindings
      ∧ stf.prefetch = some 10 := by
  intro st v ex stf h
  unfold setup_topology at h
  simp only [bind, Except.bind] at h
  cases h2 : exchange_declare (add_vhost st v) ex true with
  | error e => rw [h2] at h; exact Except.noConfusion h
  | ok s2 =>
    rw [h2] at h
    dsimp only at h
    cases h3 : queue_declare s2 (ex ++ "_q") with
    | error e => rw [h3] at h; exact Except.noConfusion h
    | ok s3 =>
      rw [h3] at h
      dsimp only at h
      cases h4 : queue_bind s3 (ex ++ "_q") ex "" with
      | error e => rw [h4] at h; exact Except.noConfusion h
      | ok s4 =>
        rw [h4] at h
        dsimp only at h
        simp only [pure, Except.pure, Except.ok.injEq] at h
        subst h
        obtain ⟨e_lk, e_v, _, _, _⟩ := exchange_declare_ok h2
        obtain ⟨q_m, q_v, q_e, _, _⟩ := queue_declare_ok h3
        obtain ⟨b_m, b_v, b_e, b_q, _⟩ := queue_bind_ok h4
        have hv : v ∈ s4.vhosts := by
          rw [b_v, q_v, e_v]; exact add_vhost_mem st v
        have hex : s4.exchanges.lookup ex = some true := by
          rw [b_e, q_e]; exact e_lk
        have hq : (ex ++ "_q") ∈ s4.queues := by
          rw [b_q]; exact q_m
        refine ⟨?_, hv, hex, hq, b_m, rfl⟩
        unfold setup_topology
        rw [add_vhost_of_mem (show v ∈ (basic_qos s4 10).vhosts from hv)]
        dsimp only
        rw [exchange_declare_self (show (basic_qos s4 10).exchanges.lookup ex
          = some true from hex)]
        simp only [bind, Except.bind]
        rw [queue_declare_self (show (ex ++ "_q") ∈ (basic_qos s4 10).queues from hq)]
        simp only [bind, Except.bind]
        rw [queue_bind_self (show (ex ++ "_q") ∈ (basic_qos s4 10).queues from hq)
          (show ((basic_qos s4 10).exchanges.lookup ex).isSome by simp [show
            (basic_qos s4 10).exchanges.lookup ex = some true from hex])
          (show (ex ++ "_q", ex, "") ∈ (basic_qos s4 10).bindings from b_m)]
        rfl

/-- Witness for C8 from the empty broker state. -/
theorem c8_witness :
    setup_topology ⟨["dx"], [("sa", true)], ["sa_q"], [("sa_q", "sa", "")], some 10⟩
        "dx" "sa"
      = .ok ⟨["dx"], [("sa", true)], ["sa_q"], [("sa_q", "sa", "")], some 10⟩
    ∧ "dx" ∈ (⟨["dx"], [("sa", true)], ["sa_q"], [("sa_q", "sa", "")], some 10⟩
        : BrokerState).vhosts
    ∧ ((⟨["dx"], [("sa", true)], ["sa_q"], [("sa_q", "sa", "")], some 10⟩
        : BrokerState).exchanges.lookup "sa") = some true :=
  have h := c8_topology_idempotent ⟨[], [], [], [], none⟩ "dx" "sa"
    ⟨["dx"], [("sa", true)], ["sa_q"], [("sa_q", "sa", "")], some 10⟩ (by rfl)
  ⟨h.1, h.2.1, h.2.2.1⟩

end Consumer


